import Mathlib

/-!
Verification of the n8n Algorand node's conversion, validation and dispatch
helpers, as shallow Lean embeddings of the TypeScript sources.

Modelling choices:
- JavaScript strings are embedded as `List Char` (named `Str` below);
  `startsWith` / `endsWith` / `includes` become list prefix / suffix / infix.
- JavaScript numbers are embedded as `ℚ` where fractional values occur
  (unit conversion) and as `ℕ` where the code only handles non-negative
  integers (balances, rounds); `Math.round` is Mathlib's `round`
  (floor of x + 1/2), which matches JS round-half-up semantics.
- Optional / possibly-undefined values are `Option`; JS truthiness of a
  numeric field is "defined and nonzero", of a string "defined and nonempty".
- Throwing code is embedded with `Except`.
-/

namespace AlgorandNode

/-- JavaScript strings are modelled as lists of characters. -/
abbrev Str := List Char

/-! ### Constants from src/nodes/Algorand/constants/networks.ts -/

/-- Conversion scale, networks.ts line 79. -/
def MICROALGOS_PER_ALGO : ℚ := 1000000

/-- Base minimum balance in microAlgos, networks.ts line 70. -/
def MIN_BALANCE : ℕ := 100000

/-- Per-asset opt-in reserve, networks.ts line 71. -/
def MIN_BALANCE_PER_ASSET : ℕ := 100000

/-- Per-application opt-in reserve, networks.ts line 72. -/
def MIN_BALANCE_PER_APP : ℕ := 100000

/-- Per-uint application state slot reserve, networks.ts line 73. -/
def MIN_BALANCE_PER_APP_UINT : ℕ := 25000

/-- Per-byte-slice application state slot reserve, networks.ts line 74. -/
def MIN_BALANCE_PER_APP_BYTESLICE : ℕ := 25000

/-- Per-box reserve, networks.ts line 75. -/
def MIN_BALANCE_PER_BOX : ℕ := 2500

/-- Per-box-byte reserve, networks.ts line 76. -/
def MIN_BALANCE_PER_BOX_BYTE : ℕ := 400

/-! ### Unit conversion, src/nodes/Algorand/utils/unitConverter.ts -/

/-- Embedding of `algoToMicroAlgo` (unitConverter.ts lines 23-25):
`return Math.round(algo * MICROALGOS_PER_ALGO);`. The function body contains
no validation and no failure path. -/
def algoToMicroAlgo (algo : ℚ) : ℤ := round (algo * MICROALGOS_PER_ALGO)

/-- Embedding of `microAlgoToAlgo` (unitConverter.ts lines 30-32):
`return microAlgo / MICROALGOS_PER_ALGO;`. -/
def microAlgoToAlgo (microAlgo : ℚ) : ℚ := microAlgo / MICROALGOS_PER_ALGO

/-- Error type named by the spec for amount validation. -/
inductive UnitError where | invalidAmount deriving DecidableEq

/-- Modelled from the spec: `wholeToSmallest(amount: non-negative real) ->
integer`, which "multiplies by the fixed scale (1,000,000) and rounds to
nearest integer" and "fails with InvalidAmount if input is negative or
non-finite". Non-finite inputs are not representable in the rational
embedding, so the validation reduces to the sign check. This definition
follows the spec's words, for comparison with `algoToMicroAlgo`, which is
the embedding of the actual code. -/
def wholeToSmallestSpec (amount : ℚ) : Except UnitError ℤ :=
  if amount < 0 then Except.error UnitError.invalidAmount
  else Except.ok (round (amount * MICROALGOS_PER_ALGO))

/-! ### Minimum balance, unitConverter.ts lines 84-123 -/

/-- Embedding of the `MinBalanceParams` interface (unitConverter.ts lines
86-93): every field is optional; `none` models an omitted field. -/
structure MinBalanceParams where
  numAssets : Option ℕ := none
  numApps : Option ℕ := none
  numAppUints : Option ℕ := none
  numAppByteSlices : Option ℕ := none
  numBoxes : Option ℕ := none
  totalBoxBytes : Option ℕ := none

/-- JavaScript truthiness of an optional numeric field: `undefined` and `0`
are falsy, every other non-negative integer is truthy. -/
def numTruthy (o : Option ℕ) : Bool :=
  match o with
  | none => false
  | some n => n != 0

/-- One `if (params.field) minBalance += params.field * CONST;` step of
`calculateMinBalance`. -/
def addField (o : Option ℕ) (c acc : ℕ) : ℕ :=
  if numTruthy o then acc + o.getD 0 * c else acc

/-- Embedding of `calculateMinBalance` (unitConverter.ts lines 95-123):
starts from `MIN_BALANCE` and conditionally adds each field's contribution
in source order. -/
def calculateMinBalance (params : MinBalanceParams) : ℕ :=
  addField params.totalBoxBytes MIN_BALANCE_PER_BOX_BYTE
    (addField params.numBoxes MIN_BALANCE_PER_BOX
      (addField params.numAppByteSlices MIN_BALANCE_PER_APP_BYTESLICE
        (addField params.numAppUints MIN_BALANCE_PER_APP_UINT
          (addField params.numApps MIN_BALANCE_PER_APP
            (addField params.numAssets MIN_BALANCE_PER_ASSET MIN_BALANCE)))))

/-- A truthiness-guarded addition step contributes exactly the field's value
(defaulting to 0) times its constant: the guard only skips additions of 0. -/
theorem addField_eq (o : Option ℕ) (c acc : ℕ) :
    addField o c acc = acc + o.getD 0 * c := by
  match o with
  | none => simp [addField, numTruthy]
  | some n =>
    by_cases h : n = 0 <;> simp [addField, numTruthy, h]

/-- C1: round-trip law for the unit conversion pair: for every non-negative
integer n, `algoToMicroAlgo (microAlgoToAlgo n) = n`, where `microAlgoToAlgo`
divides by the fixed scale 1,000,000 and `algoToMicroAlgo` multiplies by
1,000,000 and rounds to the nearest integer. -/
theorem c1_unit_conversion_roundtrip (n : ℕ) :
    algoToMicroAlgo (microAlgoToAlgo (n : ℚ)) = (n : ℤ) := by
  unfold algoToMicroAlgo microAlgoToAlgo MICROALGOS_PER_ALGO
  rw [div_mul_cancel₀]
  · exact round_natCast n
  · norm_num

/-- C2: `calculateMinBalance` computes exactly the base reserve 100,000 plus
numAssets*100,000 plus numApps*100,000 plus numAppUints*25,000 plus
numAppByteSlices*25,000 plus numBoxes*2,500 plus totalBoxBytes*400, for every
parameter object, with an omitted field contributing the same as the field
set to zero (both contribute nothing, via `Option.getD 0`); in particular
`calculateMinBalance {} = 100000` and
`calculateMinBalance {numAssets := some 5} = 600000`. -/
theorem c2_calculateMinBalance_closed_form :
    (∀ params : MinBalanceParams,
      calculateMinBalance params =
        MIN_BALANCE
          + params.numAssets.getD 0 * MIN_BALANCE_PER_ASSET
          + params.numApps.getD 0 * MIN_BALANCE_PER_APP
          + params.numAppUints.getD 0 * MIN_BALANCE_PER_APP_UINT
          + params.numAppByteSlices.getD 0 * MIN_BALANCE_PER_APP_BYTESLICE
          + params.numBoxes.getD 0 * MIN_BALANCE_PER_BOX
          + params.totalBoxBytes.getD 0 * MIN_BALANCE_PER_BOX_BYTE)
    ∧ calculateMinBalance {} = 100000
    ∧ calculateMinBalance { numAssets := some 5 } = 600000 := by
  refine ⟨?_, by rfl, by rfl⟩
  intro params
  simp only [calculateMinBalance, addField_eq]

/-- C5 counterexample: the claim says the whole-unit conversion fails with an
InvalidAmount error on every negative input, but the code's `algoToMicroAlgo`
has no failure path: at input -1 it returns -1,000,000 while the
spec-modelled `wholeToSmallestSpec` returns the InvalidAmount error. -/
theorem c5_counterexample :
    algoToMicroAlgo (-1) = -1000000
    ∧ wholeToSmallestSpec (-1) = Except.error UnitError.invalidAmount
    ∧ Except.ok (algoToMicroAlgo (-1)) ≠ wholeToSmallestSpec (-1) := by
  have hro : algoToMicroAlgo (-1) = -1000000 := by
    unfold algoToMicroAlgo MICROALGOS_PER_ALGO
    have h : ((-1 : ℚ) * 1000000) = ((-1000000 : ℤ) : ℚ) := by norm_num
    rw [h, round_intCast]
  have hsp : wholeToSmallestSpec (-1) = Except.error UnitError.invalidAmount := by
    unfold wholeToSmallestSpec
    rw [if_pos (by norm_num)]
  exact ⟨hro, hsp, by rw [hsp]; simp⟩

/-- C5 amended: `algoToMicroAlgo` performs no input validation; on every
non-negative rational input it agrees with the success case of the
spec-described conversion (multiply by 1,000,000 and round to nearest),
and negative inputs are converted the same way instead of failing. -/
theorem c5_no_validation_agrees_on_nonneg (q : ℚ) (h : 0 ≤ q) :
    Except.ok (algoToMicroAlgo q) = wholeToSmallestSpec q := by
  unfold wholeToSmallestSpec algoToMicroAlgo
  rw [if_neg (not_lt.mpr h)]

/-- C5 witness: the amended agreement instantiated at input 2. -/
theorem c5_no_validation_agrees_on_nonneg_witness :
    Except.ok (algoToMicroAlgo 2) = wholeToSmallestSpec 2 :=
  c5_no_validation_agrees_on_nonneg 2 (by norm_num)

/-! ### NFT metadata helpers, src/unnamed/part_009 (nft utils) -/

/-- Case-sensitive marker `'arc3'` used by `url.includes('arc3')`. -/
def arc3Marker : Str := "arc3".toList

/-- Suffix marker `'#arc3'` used by `url.endsWith('#arc3')`. -/
def hashArc3Suffix : Str := "#arc3".toList

/-- Suffix marker `'@arc3'` used by `name.endsWith('@arc3')`. -/
def atArc3Suffix : Str := "@arc3".toList

/-- Scheme `'template-ipfs://'` used by `url.startsWith('template-ipfs://')`. -/
def templateIpfsScheme : Str := "template-ipfs://".toList

/-- Scheme `'ipfs://'` used by `ipfsToHttp`. -/
def ipfsScheme : Str := "ipfs://".toList

/-- Default gateway argument of `ipfsToHttp`. -/
def defaultIpfsGateway : Str := "https://ipfs.io/ipfs/".toList

/-- JavaScript truthiness of an optional string: `undefined` and the empty
string are falsy. -/
def strTruthy (o : Option Str) : Bool :=
  match o with
  | none => false
  | some s => s != []

/-- Classification labels returned by `detectArcStandard`. -/
inductive ArcStandard where | arc3 | arc19 | arc69 | unknown deriving DecidableEq

/-- Embedding of the shared fall-through name check of `detectArcStandard`
(part_009 lines 107-109): `if (assetName && assetName.endsWith('@arc3'))`. -/
def detectFromName (assetName : Option Str) : ArcStandard :=
  if strTruthy assetName ∧ atArc3Suffix <:+ assetName.getD [] then ArcStandard.arc3
  else ArcStandard.unknown

/-- Embedding of `detectArcStandard` (part_009 lines 95-111): the url checks
run only under `if (assetUrl)` (JS truthiness), then control falls through to
the name check. -/
def detectArcStandard (assetUrl assetName : Option Str) : ArcStandard :=
  if strTruthy assetUrl then
    if hashArc3Suffix <:+ assetUrl.getD [] ∨ arc3Marker <:+: assetUrl.getD [] then
      ArcStandard.arc3
    else if templateIpfsScheme <+: assetUrl.getD [] then ArcStandard.arc19
    else detectFromName assetName
  else detectFromName assetName

/-- Classifier written exactly as the claim words it: a four-step priority
match over the url and name defaulted to empty strings, with no truthiness
guards. Stated for comparison with `detectArcStandard`, the embedding of the
code. -/
def detectArcStandardClaim (assetUrl assetName : Option Str) : ArcStandard :=
  if hashArc3Suffix <:+ assetUrl.getD [] ∨ arc3Marker <:+: assetUrl.getD [] then
    ArcStandard.arc3
  else if templateIpfsScheme <+: assetUrl.getD [] then ArcStandard.arc19
  else if atArc3Suffix <:+ assetName.getD [] then ArcStandard.arc3
  else ArcStandard.unknown

/-- Embedding of `ipfsToHttp` (part_009 lines 85-90): a url starting with
`'ipfs://'` is rewritten to `gateway + url.slice(7)`, every other url is
returned unchanged. The gateway parameter defaults to `defaultIpfsGateway`
in the source; it is passed explicitly here. -/
def ipfsToHttp (url gateway : Str) : Str :=
  if ipfsScheme <+: url then gateway ++ url.drop 7 else url

/-- C3: `detectArcStandard` is total and classifies in the claim's fixed
priority order: (1) url ends with '#arc3' or contains 'arc3' → ARC3;
(2) else url starts with 'template-ipfs://' → ARC19; (3) else name ends with
'@arc3' → ARC3; (4) else unknown — for every combination of optional url and
name, including the undefined and empty cases hidden behind the code's
truthiness guards; the spec's three examples evaluate as stated. -/
theorem c3_detectArcStandard_priority_order :
    (∀ assetUrl assetName : Option Str,
      detectArcStandard assetUrl assetName = detectArcStandardClaim assetUrl assetName)
    ∧ detectArcStandard (some ("ipfs://Qm123#arc3".toList)) (some ("MyNFT".toList))
        = ArcStandard.arc3
    ∧ detectArcStandard (some ("template-ipfs://cid".toList)) (some ("MyNFT".toList))
        = ArcStandard.arc19
    ∧ detectArcStandard (some ("https://example.com/x.json".toList)) (some ("MyNFT".toList))
        = ArcStandard.unknown := by
  have hempty : ¬ (atArc3Suffix <:+ ([] : Str)) := by decide
  have hname : ∀ assetName : Option Str,
      detectFromName assetName =
        (if atArc3Suffix <:+ assetName.getD [] then ArcStandard.arc3
         else ArcStandard.unknown) := by
    intro assetName
    match assetName with
    | none => simp [detectFromName, strTruthy, hempty]
    | some [] => simp [detectFromName, strTruthy, hempty]
    | some (c :: cs) => simp [detectFromName, strTruthy]
  have hu1 : ¬ (hashArc3Suffix <:+ ([] : Str)) := by decide
  have hu2 : ¬ (arc3Marker <:+: ([] : Str)) := by decide
  have hu3 : ¬ (templateIpfsScheme <+: ([] : Str)) := by decide
  refine ⟨?_, by decide, by decide, by decide⟩
  intro assetUrl assetName
  match assetUrl with
  | none =>
    simp [detectArcStandard, detectArcStandardClaim, strTruthy, hu1, hu2, hu3, hname]
  | some [] =>
    simp [detectArcStandard, detectArcStandardClaim, strTruthy, hu1, hu2, hu3, hname]
  | some (c :: cs) =>
    simp [detectArcStandard, detectArcStandardClaim, strTruthy, hname]

/-- C4 counterexample: idempotence fails in general — with the gateway base
`'ipfs://x'` (which itself starts with the ipfs scheme), applying
`ipfsToHttp` twice to `'ipfs://a'` gives `'ipfs://xxa'` while applying it
once gives `'ipfs://xa'`. -/
theorem c4_counterexample :
    ipfsToHttp (ipfsToHttp ("ipfs://a".toList) ("ipfs://x".toList)) ("ipfs://x".toList)
      ≠ ipfsToHttp ("ipfs://a".toList) ("ipfs://x".toList) := by decide

/-- C4 amended: `ipfsToHttp` rewrites a url starting with `'ipfs://'` to the
gateway base concatenated with the remainder after the 7-character scheme and
returns every other url unchanged; it is idempotent for every url provided
the gateway base is at least 7 characters long and does not itself begin with
`'ipfs://'` (as the default gateway is). -/
theorem c4_ipfsToHttp_rewrite_and_idempotent :
    (∀ url gateway : Str, ipfsScheme <+: url →
      ipfsToHttp url gateway = gateway ++ url.drop 7)
    ∧ (∀ url gateway : Str, ¬ ipfsScheme <+: url → ipfsToHttp url gateway = url)
    ∧ (∀ url gateway : Str, 7 ≤ gateway.length → ¬ ipfsScheme <+: gateway →
        ipfsToHttp (ipfsToHttp url gateway) gateway = ipfsToHttp url gateway) := by
  refine ⟨fun url gateway hp => if_pos hp, fun url gateway hp => if_neg hp, ?_⟩
  intro url gateway hlen hg
  unfold ipfsToHttp
  by_cases hp : ipfsScheme <+: url
  · rw [if_pos hp, if_neg]
    intro hcontra
    have hlen7 : ipfsScheme.length ≤ gateway.length := by
      have h7 : ipfsScheme.length = 7 := by decide
      omega
    exact hg ( List.prefix_of_prefix_length_le hcontra
      ( List.prefix_append gateway (url.drop 7)) hlen7)
  · rw [if_neg hp, if_neg hp]

/-- C4 witness: the amended idempotence instantiated at the spec's example
url `'ipfs://Qm123'` and the default gateway. -/
theorem c4_ipfsToHttp_idempotent_witness :
    ipfsToHttp (ipfsToHttp ("ipfs://Qm123".toList) defaultIpfsGateway) defaultIpfsGateway
      = ipfsToHttp ("ipfs://Qm123".toList) defaultIpfsGateway :=
  c4_ipfsToHttp_rewrite_and_idempotent.2.2 ("ipfs://Qm123".toList) defaultIpfsGateway
    (by decide) (by decide)

/-! ### Address validation and signature verification,
src/nodes/Algorand/utils/unitConverter.ts lines 45-47 and 166-172 -/

/-- Base32 (RFC 4648) value of one character of the A-Z / 2-7 alphabet. -/
def base32Val (c : Char) : Option ℕ :=
  if 'A' ≤ c ∧ c ≤ 'Z' then some (c.toNat - 65)
  else if '2' ≤ c ∧ c ≤ '7' then some (c.toNat - 24)
  else none

/-- Decode every character of a candidate address to its 5-bit base32 value,
failing on the first character outside the alphabet. -/
def base32Vals : Str → Option (List ℕ)
  | [] => some []
  | c :: cs =>
    match base32Val c, base32Vals cs with
    | some v, some vs => some (v :: vs)
    | _, _ => none

/-- Big-endian accumulation of 5-bit base32 values into a natural number. -/
def base32ToNat (vs : List ℕ) : ℕ := vs.foldl (fun a v => a * 32 + v) 0

/-- Big-endian byte expansion of a natural number to a fixed byte count. -/
def natToBytes : ℕ → ℕ → List ℕ
  | 0, _ => []
  | k + 1, n => natToBytes k (n / 256) ++ [n % 256]

/-- Modelled from the spec: the byte-level base32 decoding inside
`algosdk.isValidAddress` (the repo's `isValidAddress`, unitConverter.ts line
46, delegates to the SDK, whose source is not in src). A 58-character base32
string carries 290 bits; the trailing 2 bits are discarded and the remaining
288 bits form 36 bytes: a 32-byte public key followed by a 4-byte checksum. -/
def decodeAddressBytes (s : Str) : Option (List ℕ) :=
  match base32Vals s with
  | none => none
  | some vs => some (natToBytes 36 (base32ToNat vs / 4))

/-- Modelled from the spec: `isValidAddress(s)` is "true iff s has the exact
expected length (58 characters) and its embedded checksum (last 4 decoded
bytes of a base32 decoding of the string) matches the checksum recomputed
over the preceding public-key bytes", and any decoding failure, wrong length
or checksum mismatch yields false without throwing. The checksum recomputation
(a SHA-512/256 truncation inside the SDK) is abstracted as the `checksumOf`
parameter. -/
def isValidAddress (checksumOf : List ℕ → List ℕ) (s : Str) : Bool :=
  if s.length = 58 then
    match decodeAddressBytes s with
    | none => false
    | some bytes => bytes.drop 32 == checksumOf (bytes.take 32)
  else false

/-- Embedding of `verifySignature` (unitConverter.ts lines 166-172): the call
to `algosdk.verifyBytes` (external SDK, abstracted as the `verifier`
parameter, a thrown exception modelled as `Except.error`) is wrapped in
try/catch and a caught error returns false. -/
def verifySignature (verifier : List ℕ → List ℕ → Str → Except Str Bool)
    (data sigBytes : List ℕ) (address : Str) : Bool :=
  match verifier data sigBytes address with
  | Except.ok b => b
  | Except.error _ => false

/-- C6: for every checksum function and every string, `isValidAddress`
returns true iff the string has exactly 58 characters and the last 4 bytes of
its base32 decoding equal the checksum recomputed over the preceding 32
public-key bytes; it is total (a Lean function into Bool, so it never
throws), and in particular the empty string yields false. -/
theorem c6_isValidAddress_characterisation :
    (∀ (checksumOf : List ℕ → List ℕ) (s : Str),
      isValidAddress checksumOf s = true ↔
        s.length = 58 ∧ ∃ bytes, decodeAddressBytes s = some bytes ∧
          bytes.drop 32 = checksumOf (bytes.take 32))
    ∧ ∀ checksumOf : List ℕ → List ℕ, isValidAddress checksumOf [] = false := by
  constructor
  · intro checksumOf s
    by_cases hlen : s.length = 58
    · rcases hdec : decodeAddressBytes s with _ | bytes
      · simp [isValidAddress, hlen, hdec]
      · simp [isValidAddress, hlen, hdec]
    · simp [isValidAddress, hlen]
  · intro checksumOf
    rfl

/-- C9: `verifySignature` is total over its public interface — it always
returns a boolean: when the underlying verifier throws, the catch yields
false, and when the verifier returns a boolean, that boolean is returned. -/
theorem c9_verifySignature_total
    (verifier : List ℕ → List ℕ → Str → Except Str Bool)
    (data sigBytes : List ℕ) (address : Str) :
    (∀ e, verifier data sigBytes address = Except.error e →
      verifySignature verifier data sigBytes address = false)
    ∧ ∀ b, verifier data sigBytes address = Except.ok b →
      verifySignature verifier data sigBytes address = b := by
  constructor <;> intro x h <;> simp [verifySignature, h]

/-- C9 witness: a verifier that always throws yields false on empty inputs. -/
theorem c9_verifySignature_total_witness :
    verifySignature (fun _ _ _ => Except.error ("boom".toList)) [] [] [] = false :=
  (c9_verifySignature_total (fun _ _ _ => Except.error ("boom".toList)) [] [] []).1
    ("boom".toList) rfl

/-! ### Batch execution, src/nodes/Algorand/Algorand.node.ts lines 130-184 -/

/-- One output record of the node: either a success payload pushed through
unchanged from a resource handler, or the error record
`{ json: { error: message }, pairedItem: { item: i } }` built in the catch
branch of `execute`. -/
inductive OutRecord (α : Type) where
  | success (payload : α)
  | errorRec (message : Str) (item : ℕ)
deriving DecidableEq

/-- Embedding of the item loop of `Algorand.execute` (Algorand.node.ts lines
135-181): `op i` models the dispatched resource handler for input item `i`
(`Except.error` models a throw, including the unknown-resource default
branch), `continueOnFail` models `this.continueOnFail()`, and the
accumulator models `returnData`. -/
def executeItems {α : Type} (continueOnFail : Bool) (op : ℕ → Except Str (List α)) :
    List ℕ → List (OutRecord α) → Except Str (List (OutRecord α))
  | [], acc => Except.ok acc
  | i :: rest, acc =>
    match op i with
    | Except.ok records =>
      executeItems continueOnFail op rest (acc ++ records.map OutRecord.success)
    | Except.error e =>
      if continueOnFail then
        executeItems continueOnFail op rest (acc ++ [OutRecord.errorRec e i])
      else Except.error e

/-- Embedding of `Algorand.execute` over a batch of `n` input items
(`for (let i = 0; i < items.length; i++)`). -/
def execute {α : Type} (continueOnFail : Bool) (op : ℕ → Except Str (List α))
    (n : ℕ) : Except Str (List (OutRecord α)) :=
  executeItems continueOnFail op (List.range n) []

/-- Records contributed by item `i` under continue-on-fail, as the claim
describes them: the handler's success payloads, or one single error record
tagged with the item's index. -/
def itemRecords {α : Type} (op : ℕ → Except Str (List α)) (i : ℕ) :
    List (OutRecord α) :=
  match op i with
  | Except.ok records => records.map OutRecord.success
  | Except.error e => [OutRecord.errorRec e i]

/-- Accumulator-generalised form of the continue-on-fail loop: the loop never
fails and appends each listed item's records in order. -/
theorem executeItems_continue {α : Type} (op : ℕ → Except Str (List α))
    (l : List ℕ) (acc : List (OutRecord α)) :
    executeItems true op l acc =
      Except.ok (acc ++ (l.map (itemRecords op)).flatten) := by
  induction l generalizing acc with
  | nil => simp [executeItems]
  | cons i rest ih =>
    rcases h : op i with e | records
    · simp [executeItems, itemRecords, h, ih]
    · simp [executeItems, itemRecords, h, ih]

/-- With continue-on-fail disabled, the first failing item aborts the loop
with its error, whatever the later items would have produced. -/
theorem executeItems_abort {α : Type} (op : ℕ → Except Str (List α)) (j : ℕ)
    (e : Str) (hj : op j = Except.error e) :
    ∀ (front : List ℕ) (l : List ℕ) (acc : List (OutRecord α)),
      (∀ k ∈ front, ∃ rs, op k = Except.ok rs) →
      executeItems false op (front ++ j :: l) acc = Except.error e := by
  intro front
  induction front with
  | nil =>
    intro l acc _
    simp [executeItems, hj]
  | cons k front ih =>
    intro l acc hok
    obtain ⟨rs, hrs⟩ := hok k (List.mem_cons_self k front)
    simp only [List.cons_append, executeItems, hrs]
    exact ih l _ (fun x hx => hok x (List.mem_cons_of_mem k hx))

/-- A batch of n items splits at any index j < n. -/
theorem range_split {j n : ℕ} (h : j < n) :
    ∃ l, List.range n = List.range j ++ j :: l := by
  refine ⟨(List.range (n - j - 1)).map (fun k => j + 1 + k), ?_⟩
  have h2 : n = j + (1 + (n - j - 1)) := by omega
  rw [h2, List.range_add, List.range_add]
  congr 1
  simp [List.range_succ_eq_map, Function.comp]

/-- C7: for every batch and every operation — with continue-on-fail enabled
the batch never aborts and each item contributes its success records or one
error record carrying the failure message and tagged with that item's index,
with processing continuing through all items; with continue-on-fail disabled
the first failure aborts the whole batch with that error, regardless of what
the operation would do on any later item. -/
theorem c7_continue_on_fail_policy {α : Type} (op : ℕ → Except Str (List α))
    (n : ℕ) :
    (execute true op n = Except.ok ((List.range n).map (itemRecords op)).flatten)
    ∧ (∀ j e, j < n → op j = Except.error e →
        (∀ k, k < j → ∃ rs, op k = Except.ok rs) →
        execute false op n = Except.error e) := by
  constructor
  · simpa [execute] using executeItems_continue op (List.range n) []
  · intro j e hjn hje hok
    obtain ⟨l, hl⟩ := range_split hjn
    unfold execute
    rw [hl]
    exact executeItems_abort op j e hje (List.range j) l []
      (fun k hk => hok k (List.mem_range.mp hk))

/-- Operation used to witness C7: item 1 throws, the other items succeed with
their own index as payload. -/
def opFail1 : ℕ → Except Str (List ℕ) :=
  fun k => if k = 1 then Except.error ("boom".toList) else Except.ok [k]

/-- C7 witness: the policy instantiated on a 3-item batch whose second item
fails: continue-on-fail yields three records with the middle one an error
record tagged with index 1, and fail-fast aborts with the error. -/
theorem c7_continue_on_fail_policy_witness :
    execute true opFail1 3
      = Except.ok [OutRecord.success 0, OutRecord.errorRec ("boom".toList) 1,
          OutRecord.success 2]
    ∧ execute false opFail1 3 = Except.error ("boom".toList) := by
  constructor
  · rw [(c7_continue_on_fail_policy opFail1 3).1]
    rfl
  · exact (c7_continue_on_fail_policy opFail1 3).2 1 ("boom".toList) (by norm_num) rfl
      (fun k hk => ⟨[k], by
        have hk0 : k = 0 := by omega
        subst hk0
        rfl⟩)

/-! ### Polling trigger cursor, src/unnamed/part_005 (AlgorandTrigger.poll) -/

/-- Poll event types offered by the trigger node. -/
inductive TriggerEvent where
  | newBlock
  | transactionForAddress
  | paymentReceived
  | paymentSent
  | assetTransfer
  | assetOptIn
  | applicationCall
  | balanceChange

/-- Embedding of the `webhookData.lastRound` update performed by one
successful `AlgorandTrigger.poll` (part_005 lines 179-437): `newBlock`
advances the cursor only when the node's current round is larger (lines
191 and 208); every other round-based event stores the node's reported
current round unconditionally (lines 240, 276, 312, 344, 378 and 408);
`balanceChange` does not touch the round cursor. A failed poll (the
surrounding catch) leaves the cursor unchanged. -/
def pollLastRound (event : TriggerEvent) (lastRound currentRound : ℕ) : ℕ :=
  match event with
  | TriggerEvent.newBlock =>
    if currentRound > lastRound then currentRound else lastRound
  | TriggerEvent.balanceChange => lastRound
  | _ => currentRound

/-- C8 counterexample: the cursor is not monotone for every event and every
poll — for the transactionForAddress event, a poll whose node reports current
round 5 while the stored cursor is 10 stores 5, moving the cursor backwards
(so rounds 6..10 would be scanned again). -/
theorem c8_counterexample :
    pollLastRound TriggerEvent.transactionForAddress 10 5 < 10 := by decide

/-- C8 amended: the stored lastRound never decreases on a successful poll for
the newBlock event unconditionally, for balanceChange (which leaves the round
cursor unchanged), and for every other event whenever the node's reported
current round is at least the stored cursor; a node reporting an older round
than the cursor moves it backwards for the non-newBlock events. -/
theorem c8_cursor_monotone (event : TriggerEvent) (lastRound currentRound : ℕ)
    (h : lastRound ≤ currentRound ∨ event = TriggerEvent.newBlock
      ∨ event = TriggerEvent.balanceChange) :
    lastRound ≤ pollLastRound event lastRound currentRound := by
  rcases h with h | h | h
  · cases event <;> simp only [pollLastRound] <;> first | omega | (split <;> omega)
  · subst h
    simp only [pollLastRound]
    split <;> omega
  · subst h
    simp [pollLastRound]

/-- C8 witness: monotonicity instantiated for a paymentReceived poll moving
from cursor 7 with the node at round 9. -/
theorem c8_cursor_monotone_witness :
    (7 : ℕ) ≤ pollLastRound TriggerEvent.paymentReceived 7 9 :=
  c8_cursor_monotone TriggerEvent.paymentReceived 7 9 (Or.inl (by norm_num))

/-! ### Algod client configuration, src/nodes/Algorand/transport/algodClient.ts -/

/-- Network endpoint configuration, networks.ts lines 12-17. -/
structure NetworkConfig where
  algodUrl : Str
  indexerUrl : Str
  genesisId : Str
  genesisHash : Str
deriving DecidableEq

/-- ALGONODE_NETWORKS.mainnet, networks.ts lines 20-25. -/
def algonodeMainnet : NetworkConfig where
  algodUrl := "https://mainnet-api.algonode.cloud".toList
  indexerUrl := "https://mainnet-idx.algonode.cloud".toList
  genesisId := "mainnet-v1.0".toList
  genesisHash := "wGHE2Pwdvd7S12BL5FaOP20EGYesN73ktiC1qzkkit8=".toList

/-- ALGONODE_NETWORKS.testnet, networks.ts lines 26-31. -/
def algonodeTestnet : NetworkConfig where
  algodUrl := "https://testnet-api.algonode.cloud".toList
  indexerUrl := "https://testnet-idx.algonode.cloud".toList
  genesisId := "testnet-v1.0".toList
  genesisHash := "SGO1GKSzyE7IEPItTxCByw9x8FmnrCDexi9/cOUJOiI=".toList

/-- ALGONODE_NETWORKS.betanet, networks.ts lines 32-37. -/
def algonodeBetanet : NetworkConfig where
  algodUrl := "https://betanet-api.algonode.cloud".toList
  indexerUrl := "https://betanet-idx.algonode.cloud".toList
  genesisId := "betanet-v1.0".toList
  genesisHash := "mFgazF+2uRS1tMiL9dsj01hJGySEmPN28B/TjjvpVW0=".toList

/-- PURESTAKE_NETWORKS.mainnet, networks.ts lines 41-46. -/
def purestakeMainnet : NetworkConfig where
  algodUrl := "https://mainnet-algorand.api.purestake.io/ps2".toList
  indexerUrl := "https://mainnet-algorand.api.purestake.io/idx2".toList
  genesisId := "mainnet-v1.0".toList
  genesisHash := "wGHE2Pwdvd7S12BL5FaOP20EGYesN73ktiC1qzkkit8=".toList

/-- PURESTAKE_NETWORKS.testnet, networks.ts lines 47-52. -/
def purestakeTestnet : NetworkConfig where
  algodUrl := "https://testnet-algorand.api.purestake.io/ps2".toList
  indexerUrl := "https://testnet-algorand.api.purestake.io/idx2".toList
  genesisId := "testnet-v1.0".toList
  genesisHash := "SGO1GKSzyE7IEPItTxCByw9x8FmnrCDexi9/cOUJOiI=".toList

/-- PURESTAKE_NETWORKS.betanet, networks.ts lines 53-58. -/
def purestakeBetanet : NetworkConfig where
  algodUrl := "https://betanet-algorand.api.purestake.io/ps2".toList
  indexerUrl := "https://betanet-algorand.api.purestake.io/idx2".toList
  genesisId := "betanet-v1.0".toList
  genesisHash := "mFgazF+2uRS1tMiL9dsj01hJGySEmPN28B/TjjvpVW0=".toList

/-- Record lookup `ALGONODE_NETWORKS[network]` over the three keys declared
in networks.ts lines 19-38; any other key yields undefined. -/
def algonodeNetworks (network : Str) : Option NetworkConfig :=
  if network = "mainnet".toList then some algonodeMainnet
  else if network = "testnet".toList then some algonodeTestnet
  else if network = "betanet".toList then some algonodeBetanet
  else none

/-- Record lookup `PURESTAKE_NETWORKS[network]` over the three keys declared
in networks.ts lines 40-59; any other key yields undefined. -/
def purestakeNetworks (network : Str) : Option NetworkConfig :=
  if network = "mainnet".toList then some purestakeMainnet
  else if network = "testnet".toList then some purestakeTestnet
  else if network = "betanet".toList then some purestakeBetanet
  else none

/-- Token shape of AlgodClientConfig (algodClient.ts lines 16-20): either a
plain string token or an `{ 'X-API-Key': value }` header object. -/
inductive ApiToken where
  | plain (value : Str)
  | apiKeyHeader (value : Str)
deriving DecidableEq

/-- Embedding of the AlgodClientConfig interface (algodClient.ts lines
16-20); the optional port field is never set by getAlgodConfig and is
omitted. -/
structure AlgodClientConfig where
  url : Str
  token : ApiToken
deriving DecidableEq

/-- Credential fields read by `getAlgodConfig`; a field absent from the
credentials record is modelled as the empty string, which matches the `as
string` casts combined with the truthiness tests in the code. -/
structure AlgodCredentials where
  network : Str := []
  apiProvider : Str := []
  purestakeApiKey : Str := []
  algodUrl : Str := []
  algodToken : Str := []

/-- JavaScript `a || b` on strings: the empty string is falsy. -/
def strOr (a b : Str) : Str := if a = [] then b else a

/-- SANDBOX_CONFIG.algodUrl, networks.ts line 62. -/
def SANDBOX_ALGOD_URL : Str := "http://localhost:4001".toList

/-- Default 64-character token used for localhost custom nodes,
algodClient.ts line 49. -/
def DEFAULT_LOCAL_TOKEN : Str := List.replicate 64 'a'

/-- Embedding of `getAlgodConfig` (algodClient.ts lines 25-64): provider
dispatch with unconditional fallbacks — unknown networks fall back to the
provider's mainnet entry, unknown providers to Algonode mainnet with an empty
token, and a custom localhost URL with an empty token gets the default local
token. -/
def getAlgodConfig (c : AlgodCredentials) : AlgodClientConfig :=
  if c.apiProvider = "algonode".toList then
    { url := ((algonodeNetworks c.network).getD algonodeMainnet).algodUrl
      token := ApiToken.plain [] }
  else if c.apiProvider = "purestake".toList then
    { url := ((purestakeNetworks c.network).getD purestakeMainnet).algodUrl
      token := ApiToken.apiKeyHeader c.purestakeApiKey }
  else if c.apiProvider = "custom".toList then
    if "localhost".toList <:+: c.algodUrl ∨ "127.0.0.1".toList <:+: c.algodUrl then
      { url := strOr c.algodUrl SANDBOX_ALGOD_URL
        token := ApiToken.plain (strOr c.algodToken DEFAULT_LOCAL_TOKEN) }
    else
      { url := c.algodUrl, token := ApiToken.plain c.algodToken }
  else
    { url := algonodeMainnet.algodUrl, token := ApiToken.plain [] }

/-- C10: `getAlgodConfig` is total over every credentials record (it is a
plain function) and silently falls back — an unrecognized apiProvider yields
the Algonode mainnet URL with an empty token; an unrecognized network under
the algonode or purestake providers yields that provider's mainnet
configuration; and under the custom provider with a localhost URL, an empty
token is replaced by the default 64-character 'a' token. -/
theorem c10_getAlgodConfig_fallbacks (c : AlgodCredentials) :
    (c.apiProvider ≠ "algonode".toList → c.apiProvider ≠ "purestake".toList →
      c.apiProvider ≠ "custom".toList →
      getAlgodConfig c =
        { url := algonodeMainnet.algodUrl, token := ApiToken.plain [] })
    ∧ (c.apiProvider = "algonode".toList → algonodeNetworks c.network = none →
      getAlgodConfig c =
        { url := algonodeMainnet.algodUrl, token := ApiToken.plain [] })
    ∧ (c.apiProvider = "purestake".toList → purestakeNetworks c.network = none →
      getAlgodConfig c =
        { url := purestakeMainnet.algodUrl
          token := ApiToken.apiKeyHeader c.purestakeApiKey })
    ∧ (c.apiProvider = "custom".toList →
      ("localhost".toList <:+: c.algodUrl ∨ "127.0.0.1".toList <:+: c.algodUrl) →
      c.algodToken = [] →
      (getAlgodConfig c).token = ApiToken.plain DEFAULT_LOCAL_TOKEN) := by
  have hps : ¬ (("purestake".toList : Str) = "algonode".toList) := by decide
  have hc1 : ¬ (("custom".toList : Str) = "algonode".toList) := by decide
  have hc2 : ¬ (("custom".toList : Str) = "purestake".toList) := by decide
  refine ⟨?_, ?_, ?_, ?_⟩
  · intro h1 h2 h3
    unfold getAlgodConfig
    rw [if_neg h1, if_neg h2, if_neg h3]
  · intro h1 hnet
    unfold getAlgodConfig
    rw [if_pos h1, hnet]
    rfl
  · intro h1 hnet
    unfold getAlgodConfig
    rw [if_neg (by rw [h1]; exact hps), if_pos h1, hnet]
    rfl
  · intro h1 hloc htok
    unfold getAlgodConfig
    rw [if_neg (by rw [h1]; exact hc1), if_neg (by rw [h1]; exact hc2), if_pos h1,
      if_pos hloc]
    simp [strOr, htok]

/-- C10 witness: custom provider, localhost URL, empty token — the config
token is the default 64-character 'a' token. -/
theorem c10_getAlgodConfig_fallbacks_witness :
    (getAlgodConfig
      { apiProvider := "custom".toList
        algodUrl := "http://localhost:4001".toList }).token
      = ApiToken.plain DEFAULT_LOCAL_TOKEN :=
  (c10_getAlgodConfig_fallbacks
    { apiProvider := "custom".toList
      algodUrl := "http://localhost:4001".toList }).2.2.2
    rfl (Or.inl (by decide)) rfl

end AlgorandNode
